import Mathlib

/-!
Verification of the conversation-forwarding backend (`backend/utils.py`).

The module holds a fixed system-prompt string, resolves a model identifier
from the environment once at load, and exposes `get_agent_response`, which
ensures a system message sits at index 0 of the history, issues one call to
the external completion provider, and returns the history extended by the
provider's reply (trimmed of surrounding whitespace) as an assistant message.

Modelling choices:
- A Python message dict is an association list `Msg = List (String × String)`;
  key access that can raise `KeyError` is `dictGet`, returning `Option`.
- Python exceptions are the `Except PyErr` monad: `keyError`, `indexError`,
  `attributeError` for field indexing, `providerFailure` for transport or
  authentication failures raised inside `litellm.completion`.
- The external provider is a parameter `provider : String → List Msg →
  Except PyErr Resp`; `Resp` mirrors the parts of the response object the
  code indexes (`choices[0].message.content`), each level optional so a
  malformed shape raises at the access the code performs.
- `get_agent_response` additionally returns the list of `(model, messages)`
  requests it issued, so theorems can speak about what was sent.
- `os.environ` is a parameter `env : String → Option String`.
- Python `str.strip()` is `strip` below: drop whitespace characters from both
  ends of the character sequence.
-/

/-- A Python exception relevant to `get_agent_response`. -/
inductive PyErr where
  | keyError
  | indexError
  | attributeError
  | providerFailure (detail : String)
deriving Repr, DecidableEq

/-- A Python message dict `{"role": ..., "content": ...}` as an association
list. -/
abbrev Msg := List (String × String)

/-- Python dict key access, `none` when the key is absent (a `KeyError`). -/
def dictGet (m : Msg) (k : String) : Option String :=
  (m.find? (fun p => p.1 == k)).map (fun p => p.2)

/-- The fixed instruction text `SYSTEM_PROMPT` of `backend/utils.py`. -/
def SYSTEM_PROMPT : String :=
"\n\nYou are a helpful recipe bot designed to generate safe, appealing, and diabetes-friendly meal ideas for young children with Type 1 Diabetes (T1D). All responses should be based on the specific input dimensions provided by the user or collected through clarifying questions.\n\nYour job is to generate full recipes or meal plans. Before providing a recipe or meal plan, ensure you have sufficient information about meal type, carb range, and food preferences. Use context clues from the user\x27s request to avoid asking for information that\x27s already clear or implied.\n\nAsk concise, friendly clarifying questions only when necessary and only for information that\x27s genuinely unclear or missing.\n\n---\n\nSupported Meal Types\n\nYou support all meal types equally, including but not limited to:\n- Breakfast  \n- Lunch  \n- Dinner  \n- Snacks  \n- Desserts\n\nThese are all valid requests for children with Type 1 Diabetes. **Do not deprioritize or reject dessert or snack requests.** These are important components of T1D-friendly meal planning.\n\n---\n\nClarification Guidelines\n\nUse your knowledge and common sense to assess what information you already have from the user\x27s request. Only ask for details that are genuinely needed and not obvious from context.\n\n### Context-Aware Question Guidelines:\n**If meal type is obvious from context, DO NOT ask about it:**\n- User says \"dessert\" → DON\x27T ask \"what kind of meal is this?\"\n- User says \"breakfast recipe\" → DON\x27T ask \"is this for breakfast, lunch, or dinner?\"\n\n**Recognize anytime treats/snacks - DO NOT ask about meal type for:**\n- Cookies, candy, ice cream, crackers, chips, muffins, brownies\n- Foods that are obviously treats or snacks\n- Items that aren\x27t tied to specific meal times\n- Items that are condiments or sauces or toppings\n\n**When asking for food preferences, use appropriate terminology:**\n- **CORRECT**: \"What kinds of foods does your child enjoy for [meal type]?\"\n- **CORRECT**: \"What types of [specific food] does your child prefer?\"\n- **NEVER say**: \"What flavors does your child like?\" (Only use \"flavors\" for items like ice cream, yogurt, or smoothies where flavor varieties exist)\n\n**Always provide open-ended options:**\n- **CORRECT**: \"What kind of lunch are you looking for — sandwich, salad, wrap, or something else?\"\n- **WRONG**: \"What kind of lunch are you looking for — sandwich, salad, or wrap?\" (missing \"something else\")\n\n### When to Ask Questions:\n\n**Only ask about carb range if:**\n- No carb information is provided in the request\n- The request is vague about portion size or dietary needs\n\n**Only ask about food preferences if:**\n- The request is very general (like \"dinner recipe\") \n- You need specific details to create a good recipe\n- There are obvious customization opportunities\n\n**Never ask about meal type if:**\n- It\x27s obvious from the food requested (cookies = dessert, pancakes = breakfast)\n- The user explicitly mentioned the meal type\n- The context makes it clear\n\n### Critical Rules:\n**NEVER use the word \"flavors\"** unless referring to specific flavor varieties (ice cream flavors, yogurt flavors, etc.)\n\n**NEVER ask about meal type** if the user already specified it or if it\x27s obvious from context\n\n**ALWAYS include \"or something else?\"** when providing example options\n\n**NEVER re-ask for information already provided**\n\n**Be helpful and intelligent** - use common sense rather than following rigid question patterns\n\n**Stay focused on meal and recipe planning** - do not provide travel logistics, medical advice, or non-food planning\n\n---\n\nCarb and Portion Logic\n\n- Recipes must include a **carbohydrate count per serving**\n- Portion sizes should be appropriate for a **child**\n- When substitutions are made, update the **carb count** accordingly\n- If unsure about a substitution\x27s carb impact, ask the user to confirm\n\n---\n\nResponse Requirements\n\nAlways:\n- Include the following directly beneath the recipe title:\n  - Recipe makes X servings\n  - Each serving weighs approx. Xg\n  - Each serving contains approx. Xg carbs\n  - If a user-submitted substitution is applied, indicate the new carb count per serving\n- Ensure portion sizes and carb levels are appropriate for children\n- Use diabetes-friendly ingredients (whole grains, lean proteins, minimal added sugars)\n- Use simple, clear instructions suitable for a child (with supervision) or a parent\n- Mention equipment needed (e.g., non-stick skillet), and suggest alternatives when possible\n- When a substitution is provided, update the ingredient list and recalculate both the total and per-serving carbohydrate count\n- Structure all responses using Markdown formatting as shown below\n\nNever:\n- Do not suggest recipes high in refined sugar or unhealthy fats\n- Do not skip or bury the carb count\n- Do not ignore input dimensions\n- Do not use hard-to-find or exotic ingredients without offering substitutions\n- Never use offensive or inappropriate language\n- **Do not use the word \"flavors\" inappropriately**\n- **Do not ask contextually inappropriate questions**\n- **Do not provide closed-ended option lists without \"something else\"**\n- **Do not go beyond meal/recipe planning scope**\n- **Do not ask systematic questions when context already provides the answers**\n\n---\n\nMarkdown Formatting Structure (Use this exact structure)\n\nExample:\n\n## Cheesy Chicken Quesadilla Wedges\n\nRecipe makes 4 servings  \nEach serving weighs approx. 80g  \nEach serving contains approx. 12g carbs  \n*With user-submitted substitution: swap cheddar cheese for avocado slices → new carb count: approx. 10g per serving*\n\nA warm, satisfying lunch with familiar foods. Perfect for school lunchboxes or quick dinners.\n\n### Ingredients\n* 1 low-carb whole wheat tortilla (8-inch)\n* 2 oz cooked chicken breast, shredded\n* 1/4 cup avocado slices (substitution for cheese)\n* Cooking spray or 1 tsp olive oil\n\n### Instructions\n1. Heat skillet over medium heat.\n2. Arrange chicken and avocado slices on one half of the tortilla.\n3. Fold, press, and cook 2–3 minutes per side until golden.\n4. Let cool slightly and cut into 4 wedges.\n\n### Notes\n* Original recipe used cheddar cheese (12g carbs/serving). Substitution reduces carb count to approx. 10g/serving.\n* For crispier texture, press down with a spatula while cooking."

/-- `MODEL_NAME = os.environ.get("MODEL_NAME", "gpt-4o-mini")`, resolved once
at module load from the process environment `env`. -/
def MODEL_NAME (env : String → Option String) : String :=
  (env "MODEL_NAME").getD "gpt-4o-mini"

/-- The dict literal `{"role": "system", "content": SYSTEM_PROMPT}`. -/
def systemMessage : Msg :=
  [("role", "system"), ("content", SYSTEM_PROMPT)]

/-- The `message` field of a completion choice: `content` is `none` when the
key is absent (`KeyError`), `some none` when it is `null` (so that `.strip()`
raises `AttributeError`). -/
structure RMessage where
  content : Option (Option String)
deriving Repr, DecidableEq

/-- One element of the `choices` array: `message` may be absent. -/
structure RChoice where
  message : Option RMessage
deriving Repr, DecidableEq

/-- The provider response object: `choices` may be absent. -/
structure Resp where
  choices : Option (List RChoice)
deriving Repr, DecidableEq

/-- Python `str.strip()` with no argument: remove leading and trailing
whitespace characters. -/
def strip (s : String) : String :=
  String.mk
    (((s.data.dropWhile Char.isWhitespace).reverse.dropWhile
        Char.isWhitespace).reverse)

/-- The field indexing `completion["choices"][0]["message"]["content"]`
followed by `.strip()`: each access raises exactly where the Python
expression would. -/
def extractContent (completion : Resp) : Except PyErr String :=
  match completion.choices with
  | none => .error .keyError
  | some choices =>
    match choices with
    | [] => .error .indexError
    | c :: _ =>
      match c.message with
      | none => .error .keyError
      | some msg =>
        match msg.content with
        | none => .error .keyError
        | some none => .error .attributeError
        | some (some s) => .ok s

/-- The test `not messages or messages[0]["role"] != "system"`: `true` when
the system prompt must be injected; on an empty history the `or`
short-circuits without indexing, and on a non-empty history
`messages[0]["role"]` raises `KeyError` when the first dict has no
`"role"` key. -/
def firstRoleCheck (messages : List Msg) : Except PyErr Bool :=
  match messages with
  | [] => .ok true
  | m :: _ =>
    match dictGet m "role" with
    | some r => .ok (r != "system")
    | none => .error .keyError

/-- `get_agent_response` of `backend/utils.py`. Returns the list of
`(model, messages)` requests issued to `litellm.completion` together with
the value returned or the exception propagated. -/
def get_agent_response (env : String → Option String)
    (provider : String → List Msg → Except PyErr Resp)
    (messages : List Msg) :
    List (String × List Msg) × Except PyErr (List Msg) :=
  match firstRoleCheck messages with
  | .error e => ([], .error e)
  | .ok needsPrompt =>
    let current_messages : List Msg :=
      if needsPrompt then [systemMessage] ++ messages else messages
    ([(MODEL_NAME env, current_messages)],
     match provider (MODEL_NAME env) current_messages with
     | .error e => .error e
     | .ok completion =>
       match extractContent completion with
       | .error e => .error e
       | .ok raw =>
         let assistant_reply_content : String := strip raw
         .ok (current_messages ++
              [[("role", "assistant"), ("content", assistant_reply_content)]]))

/-!
Heap model for the frame property. Python lists and dicts are mutable
objects; to state that `get_agent_response` never mutates its argument we
re-run the function over an explicit object heap. Values are string, list
and dict objects; lists and dicts hold references (heap addresses) to their
elements. Every operation the source performs on caller-visible data —
`not messages`, `messages[0]["role"]`, the list display
`[{"role": "system", "content": SYSTEM_PROMPT}]`, list `+`, and the final
list display for the assistant message — either reads the heap or allocates
a fresh object at the end of the heap; nothing writes an existing address.
The external provider is summarised by its outcome (a reply string or an
exception), matching the assumption that `litellm.completion` does not
mutate its argument.
-/

/-- A Python runtime object: a string, a list of references, or a dict
mapping string keys to references. -/
inductive PyVal where
  | vstr : String → PyVal
  | vlist : List Nat → PyVal
  | vdict : List (String × Nat) → PyVal
deriving Repr, DecidableEq

/-- The object heap: address `i` holds `h.get? i`. -/
abbrev Heap := List PyVal

/-- Allocate a fresh object at the end of the heap, returning its address. -/
def alloc (h : Heap) (v : PyVal) : Heap × Nat :=
  (h ++ [v], h.length)

/-- Dict key lookup on a heap object, `none` on `KeyError`. -/
def heapDictGet (h : Heap) (dref : Nat) (k : String) : Option Nat :=
  match h.get? dref with
  | some (.vdict fields) => (fields.find? (fun p => p.1 == k)).map (fun p => p.2)
  | _ => none

/-- The test `not messages or messages[0]["role"] != "system"` over the heap:
`none` only when the heap is ill-typed at a dereferenced address; otherwise
the Boolean, or the `KeyError` raised when the first dict has no `"role"`
key. -/
def roleCheckHeap (h : Heap) (elems : List Nat) : Option (Except PyErr Bool) :=
  match elems with
  | [] => some (.ok true)
  | m :: _ =>
    match heapDictGet h m "role" with
    | some rref =>
      match h.get? rref with
      | some (.vstr r) => some (.ok (r != "system"))
      | _ => none
    | none =>
      match h.get? m with
      | some (.vdict _) => some (.error .keyError)
      | _ => none

/-- `get_agent_response` re-run over the object heap. `messagesRef` is the
caller's list object; `providerResult` summarises the external call (the
reply string, or the exception it raises). Returns `none` only if the heap
is ill-typed at an address the code dereferences (not a Python outcome);
otherwise returns the final heap together with the returned list's address
or the propagated exception. -/
def get_agent_response_heap (providerResult : Except PyErr String)
    (h : Heap) (messagesRef : Nat) : Option (Heap × Except PyErr Nat) :=
  match h.get? messagesRef with
  | some (.vlist elems) =>
    match roleCheckHeap h elems with
    | none => none
    | some (.error e) => some (h, .error e)
    | some (.ok needsPrompt) =>
      -- `current_messages`: a fresh list built by `+` when injecting, the
      -- caller's own list object otherwise (plain rebinding, no copy); its
      -- reference and its element references are carried together
      let hc : Heap × Nat × List Nat :=
        if needsPrompt then
          let ha := alloc h (.vstr "system")
          let hb := alloc ha.1 (.vstr SYSTEM_PROMPT)
          let hd := alloc hb.1 (.vdict [("role", ha.2), ("content", hb.2)])
          let hl := alloc hd.1 (.vlist ([hd.2] ++ elems))
          (hl.1, hl.2, [hd.2] ++ elems)
        else
          (h, messagesRef, elems)
      match providerResult with
      | .error e => some (hc.1, .error e)
      | .ok raw =>
        let h2 := alloc hc.1 (.vstr (strip raw))
        let h3 := alloc h2.1 (.vstr "assistant")
        let h4 := alloc h3.1 (.vdict [("role", h3.2), ("content", h2.2)])
        let h5 := alloc h4.1 (.vlist (hc.2.2 ++ [h4.2]))
        some (h5.1, .ok h5.2)
  | _ => none

/-! ### Concrete inputs used by witnesses -/

/-- An environment with no variables set. -/
def envEmpty : String → Option String := fun _ => none

/-- A well-shaped provider response carrying reply `s`. -/
def respOf (s : String) : Resp := ⟨some [⟨some ⟨some (some s)⟩⟩]⟩

/-- A provider that always answers with reply `s`. -/
def providerOk (s : String) : String → List Msg → Except PyErr Resp :=
  fun _ _ => .ok (respOf s)

/-! ### Helper lemmas -/

theorem firstRoleCheck_ok_false (messages : List Msg)
    (h : firstRoleCheck messages = .ok false) :
    ∃ m ms, messages = m :: ms ∧ dictGet m "role" = some "system" := by
  match messages with
  | [] => simp [firstRoleCheck] at h
  | m :: ms =>
    refine ⟨m, ms, rfl, ?_⟩
    simp only [firstRoleCheck] at h
    cases hr : dictGet m "role" with
    | none => rw [hr] at h; exact absurd h (by simp)
    | some r =>
      rw [hr] at h
      simp only [Except.ok.injEq, bne_eq_false_iff_eq] at h
      rw [h]

theorem firstRoleCheck_cons_system (m : Msg) (ms : List Msg)
    (h : dictGet m "role" = some "system") :
    firstRoleCheck (m :: ms) = .ok false := by
  simp only [firstRoleCheck]
  rw [h]
  simp

theorem requests_of_check (env : String → Option String)
    (provider : String → List Msg → Except PyErr Resp)
    (messages : List Msg) (b : Bool)
    (hb : firstRoleCheck messages = .ok b) :
    (get_agent_response env provider messages).1
      = [(MODEL_NAME env,
          if b then [systemMessage] ++ messages else messages)] := by
  unfold get_agent_response
  rw [hb]

theorem result_of_success (env : String → Option String)
    (provider : String → List Msg → Except PyErr Resp)
    (messages : List Msg) (b : Bool) (completion : Resp) (raw : String)
    (hb : firstRoleCheck messages = .ok b)
    (hp : provider (MODEL_NAME env)
            (if b then [systemMessage] ++ messages else messages)
          = .ok completion)
    (hx : extractContent completion = .ok raw) :
    get_agent_response env provider messages
      = ([(MODEL_NAME env,
           if b then [systemMessage] ++ messages else messages)],
         .ok ((if b then [systemMessage] ++ messages else messages)
              ++ [[("role", "assistant"), ("content", strip raw)]])) := by
  unfold get_agent_response
  rw [hb]
  simp only [List.singleton_append] at hp ⊢
  simp only [hp, hx]

/-! ### Claim theorems -/

/-- C1: for every non-empty history whose first element has role `system`,
`get_agent_response` issues exactly one provider request whose message
payload is that history, unmodified and in order. -/
theorem sends_history_verbatim_when_first_is_system
    (env : String → Option String)
    (provider : String → List Msg → Except PyErr Resp)
    (m : Msg) (ms : List Msg)
    (hrole : dictGet m "role" = some "system") :
    (get_agent_response env provider (m :: ms)).1
      = [(MODEL_NAME env, m :: ms)] := by
  have h := requests_of_check env provider (m :: ms) false
    (firstRoleCheck_cons_system m ms hrole)
  simpa using h

/-- Witness for C1: the scenario of a history already starting with a custom
system message. -/
theorem sends_history_verbatim_when_first_is_system_instance :
    (get_agent_response envEmpty (providerOk " ok ")
        [[("role", "system"), ("content", "custom")]]).1
      = [("gpt-4o-mini", [[("role", "system"), ("content", "custom")]])] :=
  sends_history_verbatim_when_first_is_system envEmpty (providerOk " ok ")
    [("role", "system"), ("content", "custom")] [] (by decide)

/-- C2: for every history that is empty or whose first element's role is not
`system`, the request payload is exactly one system message carrying
`SYSTEM_PROMPT` prepended to the original history, which is otherwise
unchanged. -/
theorem prepends_prompt_when_first_not_system
    (env : String → Option String)
    (provider : String → List Msg → Except PyErr Resp)
    (messages : List Msg)
    (h : messages = [] ∨
         ∃ m ms r, messages = m :: ms ∧ dictGet m "role" = some r ∧
           r ≠ "system") :
    (get_agent_response env provider messages).1
      = [(MODEL_NAME env, [systemMessage] ++ messages)] := by
  have hb : firstRoleCheck messages = .ok true := by
    rcases h with h | ⟨m, ms, r, hm, hr, hne⟩
    · rw [h]; rfl
    · rw [hm]
      simp only [firstRoleCheck]
      rw [hr]
      simp [hne]
  simpa using requests_of_check env provider messages true hb

/-- Witness for C2: the scenario of a single user message. -/
theorem prepends_prompt_when_first_not_system_instance :
    (get_agent_response envEmpty (providerOk " ok ")
        [[("role", "user"), ("content", "breakfast idea")]]).1
      = [("gpt-4o-mini",
          [systemMessage, [("role", "user"), ("content", "breakfast idea")]])] :=
  prepends_prompt_when_first_not_system envEmpty (providerOk " ok ")
    [[("role", "user"), ("content", "breakfast idea")]]
    (Or.inr ⟨[("role", "user"), ("content", "breakfast idea")], [], "user",
      rfl, by decide, by decide⟩)

theorem rdropWhile_append_rtakeWhile_self (p : Char → Bool) (l : List Char) :
    List.rdropWhile p l ++ List.rtakeWhile p l = l := by
  rw [List.rdropWhile, List.rtakeWhile, ← List.reverse_append,
    List.takeWhile_append_dropWhile, List.reverse_reverse]

theorem strip_data (s : String) :
    (strip s).data
      = List.rdropWhile Char.isWhitespace
          (List.dropWhile Char.isWhitespace s.data) := rfl

theorem strip_decomposition (s : String) :
    ∃ pre post, s.data = pre ++ (strip s).data ++ post ∧
      (∀ c ∈ pre, c.isWhitespace) ∧ (∀ c ∈ post, c.isWhitespace) := by
  refine ⟨List.takeWhile Char.isWhitespace s.data,
    List.rtakeWhile Char.isWhitespace
      (List.dropWhile Char.isWhitespace s.data), ?_, ?_, ?_⟩
  · rw [strip_data, List.append_assoc,
      rdropWhile_append_rtakeWhile_self Char.isWhitespace,
      List.takeWhile_append_dropWhile]
  · exact fun c hc => List.mem_takeWhile_imp hc
  · exact fun c hc => List.mem_rtakeWhile_imp hc

theorem strip_last_not_whitespace (s : String) (c : Char)
    (h : (strip s).data.getLast? = some c) : ¬ c.isWhitespace = true := by
  rw [strip_data] at h
  obtain ⟨hne, rfl⟩ := List.mem_getLast?_eq_getLast h
  exact List.rdropWhile_last_not _ _ hne

theorem head?_dropWhile_whitespace (p : Char → Bool) (l : List Char)
    (a : Char) (h : (l.dropWhile p).head? = some a) : p a = false := by
  induction l with
  | nil => simp [List.dropWhile] at h
  | cons x xs ih =>
    rw [List.dropWhile_cons] at h
    by_cases hp : p x
    · rw [if_pos hp] at h; exact ih h
    · rw [if_neg hp] at h
      simp only [List.head?_cons, Option.some.injEq] at h
      subst h
      simpa using hp

theorem strip_head_not_whitespace (s : String) (c : Char)
    (h : (strip s).data.head? = some c) : ¬ c.isWhitespace = true := by
  rw [strip_data] at h
  obtain ⟨t, ht⟩ := List.rdropWhile_prefix Char.isWhitespace
    (l := List.dropWhile Char.isWhitespace s.data)
  cases hr : List.rdropWhile Char.isWhitespace
      (List.dropWhile Char.isWhitespace s.data) with
  | nil => rw [hr] at h; exact absurd h (by simp)
  | cons a as =>
    rw [hr] at h
    simp only [List.head?_cons, Option.some.injEq] at h
    rw [hr] at ht
    have hdn : (List.dropWhile Char.isWhitespace s.data).head? = some a := by
      rw [← ht]; rfl
    have := head?_dropWhile_whitespace Char.isWhitespace s.data a hdn
    rw [← h]
    simp [this]

theorem ok_inversion (env : String → Option String)
    (provider : String → List Msg → Except PyErr Resp)
    (messages : List Msg) (out : List Msg)
    (h : (get_agent_response env provider messages).2 = .ok out) :
    ∃ b completion raw, firstRoleCheck messages = .ok b ∧
      provider (MODEL_NAME env)
          (if b then [systemMessage] ++ messages else messages)
        = .ok completion ∧
      extractContent completion = .ok raw ∧
      out = (if b then [systemMessage] ++ messages else messages)
            ++ [[("role", "assistant"), ("content", strip raw)]] := by
  unfold get_agent_response at h
  split at h
  · simp at h
  · rename_i b hb
    refine ⟨b, ?_⟩
    simp only [List.singleton_append] at h
    split at h
    · simp at h
    · rename_i completion hp
      refine ⟨completion, ?_⟩
      split at h
      · simp at h
      · rename_i raw hx
        simp only [Except.ok.injEq] at h
        exact ⟨raw, hb, hp, hx, h.symm⟩

/-- C3: whenever `get_agent_response` returns successfully, its result is the
request payload it sent plus exactly one new final `assistant` message, so it
is one element longer than the sent payload — one longer than the original
history when that history already began with a system-role message (check
result `false`), and two longer otherwise (check result `true`). -/
theorem result_extends_request_by_one_assistant
    (env : String → Option String)
    (provider : String → List Msg → Except PyErr Resp)
    (messages : List Msg) (out : List Msg)
    (h : (get_agent_response env provider messages).2 = .ok out) :
    ∃ cur reply,
      (get_agent_response env provider messages).1 = [(MODEL_NAME env, cur)] ∧
      out = cur ++ [[("role", "assistant"), ("content", reply)]] ∧
      out.length = cur.length + 1 ∧
      (firstRoleCheck messages = .ok false →
        out.length = messages.length + 1) ∧
      (firstRoleCheck messages = .ok true →
        out.length = messages.length + 2) := by
  obtain ⟨b, completion, raw, hb, hp, hx, hout⟩ :=
    ok_inversion env provider messages out h
  refine ⟨if b then [systemMessage] ++ messages else messages, strip raw,
    requests_of_check env provider messages b hb, hout, ?_, ?_, ?_⟩
  · rw [hout]; simp
  · intro hfalse
    rw [hb] at hfalse
    simp only [Except.ok.injEq] at hfalse
    rw [hout, hfalse]
    simp
  · intro htrue
    rw [hb] at htrue
    simp only [Except.ok.injEq] at htrue
    rw [hout, htrue]
    simp

/-- Witness for C3: an empty input history with reply " hi ". -/
theorem result_extends_request_by_one_assistant_instance :
    ∃ cur reply,
      (get_agent_response envEmpty (providerOk " hi ") []).1
        = [(MODEL_NAME envEmpty, cur)] ∧
      [systemMessage, [("role", "assistant"), ("content", "hi")]]
        = cur ++ [[("role", "assistant"), ("content", reply)]] ∧
      ([systemMessage,
        [("role", "assistant"), ("content", "hi")]] : List Msg).length
        = cur.length + 1 ∧
      (firstRoleCheck ([] : List Msg) = .ok false →
        ([systemMessage,
          [("role", "assistant"), ("content", "hi")]] : List Msg).length
          = ([] : List Msg).length + 1) ∧
      (firstRoleCheck ([] : List Msg) = .ok true →
        ([systemMessage,
          [("role", "assistant"), ("content", "hi")]] : List Msg).length
          = ([] : List Msg).length + 2) :=
  result_extends_request_by_one_assistant envEmpty (providerOk " hi ") []
    [systemMessage, [("role", "assistant"), ("content", "hi")]] rfl

/-- C4: on success, the content of the appended assistant message is exactly
the provider's reply with leading and trailing whitespace removed: the reply
splits as whitespace, the appended content, whitespace, and the appended
content neither starts nor ends with whitespace, so nothing else was
changed. -/
theorem appended_content_is_trimmed_reply
    (env : String → Option String)
    (provider : String → List Msg → Except PyErr Resp)
    (messages : List Msg) (b : Bool) (completion : Resp) (raw : String)
    (hb : firstRoleCheck messages = .ok b)
    (hp : provider (MODEL_NAME env)
            (if b then [systemMessage] ++ messages else messages)
          = .ok completion)
    (hx : extractContent completion = .ok raw) :
    (get_agent_response env provider messages).2
      = .ok ((if b then [systemMessage] ++ messages else messages)
             ++ [[("role", "assistant"), ("content", strip raw)]]) ∧
    (∃ pre post, raw.data = pre ++ (strip raw).data ++ post ∧
       (∀ c ∈ pre, c.isWhitespace) ∧ (∀ c ∈ post, c.isWhitespace)) ∧
    (∀ c, (strip raw).data.head? = some c → ¬ c.isWhitespace = true) ∧
    (∀ c, (strip raw).data.getLast? = some c → ¬ c.isWhitespace = true) := by
  refine ⟨?_, strip_decomposition raw,
    strip_head_not_whitespace raw, strip_last_not_whitespace raw⟩
  have := result_of_success env provider messages b completion raw hb hp hx
  rw [this]

/-- Witness for C4: a reply padded with whitespace on both sides. -/
theorem appended_content_is_trimmed_reply_instance :
    (get_agent_response envEmpty (providerOk " ok\n") []).2
      = .ok ((if true then [systemMessage] ++ ([] : List Msg) else [])
             ++ [[("role", "assistant"), ("content", strip " ok\n")]]) ∧
    (∃ pre post, (" ok\n" : String).data
         = pre ++ (strip " ok\n").data ++ post ∧
       (∀ c ∈ pre, c.isWhitespace) ∧ (∀ c ∈ post, c.isWhitespace)) ∧
    (∀ c, (strip " ok\n").data.head? = some c → ¬ c.isWhitespace = true) ∧
    (∀ c, (strip " ok\n").data.getLast? = some c → ¬ c.isWhitespace = true) :=
  appended_content_is_trimmed_reply envEmpty (providerOk " ok\n") []
    true (respOf " ok\n") " ok\n" rfl rfl rfl

/-- C5: failures of the provider call and of the response-field indexing
propagate to the caller unchanged — there is no handler, fallback, or retry:
a provider error becomes the function's error verbatim, an indexing error on
the response becomes the function's error verbatim, success requires both to
succeed, and at most one provider request is ever issued. -/
theorem provider_errors_propagate_uncaught
    (env : String → Option String)
    (provider : String → List Msg → Except PyErr Resp)
    (messages : List Msg) (b : Bool)
    (hb : firstRoleCheck messages = .ok b) :
    (∀ e, provider (MODEL_NAME env)
            (if b then [systemMessage] ++ messages else messages)
          = .error e →
       (get_agent_response env provider messages).2 = .error e) ∧
    (∀ completion e,
       provider (MODEL_NAME env)
           (if b then [systemMessage] ++ messages else messages)
         = .ok completion →
       extractContent completion = .error e →
       (get_agent_response env provider messages).2 = .error e) ∧
    (∀ out, (get_agent_response env provider messages).2 = .ok out →
       ∃ completion raw,
         provider (MODEL_NAME env)
             (if b then [systemMessage] ++ messages else messages)
           = .ok completion ∧
         extractContent completion = .ok raw) ∧
    (get_agent_response env provider messages).1.length ≤ 1 := by
  refine ⟨?_, ?_, ?_, ?_⟩
  · intro e hp
    unfold get_agent_response
    rw [hb]
    simp only [List.singleton_append] at hp ⊢
    simp only [hp]
  · intro completion e hp hx
    unfold get_agent_response
    rw [hb]
    simp only [List.singleton_append] at hp ⊢
    simp only [hp, hx]
  · intro out h
    obtain ⟨b', completion, raw, hb', hp, hx, _⟩ :=
      ok_inversion env provider messages out h
    rw [hb] at hb'
    simp only [Except.ok.injEq] at hb'
    subst hb'
    exact ⟨completion, raw, hp, hx⟩
  · rw [requests_of_check env provider messages b hb]
    simp

/-- Witness for C5: a transport failure surfaces verbatim. -/
theorem provider_errors_propagate_uncaught_instance :
    (get_agent_response envEmpty
        (fun _ _ => .error (.providerFailure "boom")) []).2
      = .error (.providerFailure "boom") :=
  (provider_errors_propagate_uncaught envEmpty
      (fun _ _ => .error (.providerFailure "boom")) [] true rfl).1
    (.providerFailure "boom") rfl

/-- C6 counterexample: a history already starting with a system message whose
content is "custom" is sent for completion verbatim, so the message at
index 0 of the sequence used for completion does not contain the fixed
instruction text `SYSTEM_PROMPT`. -/
theorem completion_payload_head_not_prompt :
    (get_agent_response envEmpty (providerOk " ok ")
        [[("role", "system"), ("content", "custom")]]).1
      = [("gpt-4o-mini", [[("role", "system"), ("content", "custom")]])] ∧
    ¬ dictGet [("role", "system"), ("content", "custom")] "content"
        = some SYSTEM_PROMPT := by
  refine ⟨rfl, ?_⟩
  have : dictGet [("role", "system"), ("content", "custom")] "content"
      = some "custom" := rfl
  rw [this]
  simp only [Option.some.injEq]
  simp [SYSTEM_PROMPT]

/-- C6 (amended): whenever a request is issued, the message sequence used for
completion is non-empty and its element at index 0 has role `system`; that
element is the injected `{system, SYSTEM_PROMPT}` message exactly when the
input history was empty or did not start with a system-role message, while a
caller-supplied leading system message is used with its own content. -/
theorem completion_payload_head_is_system
    (env : String → Option String)
    (provider : String → List Msg → Except PyErr Resp)
    (messages : List Msg) (req : String × List Msg)
    (hreq : req ∈ (get_agent_response env provider messages).1) :
    ∃ m rest, req.2 = m :: rest ∧ dictGet m "role" = some "system" ∧
      (firstRoleCheck messages = .ok true → m = systemMessage) := by
  cases hb : firstRoleCheck messages with
  | error e =>
    rw [show (get_agent_response env provider messages).1 = [] by
      unfold get_agent_response; rw [hb]] at hreq
    exact absurd hreq (List.not_mem_nil req)
  | ok b =>
    rw [requests_of_check env provider messages b hb] at hreq
    simp only [List.mem_singleton] at hreq
    subst hreq
    cases b with
    | true =>
      exact ⟨systemMessage, messages, rfl, rfl, fun _ => rfl⟩
    | false =>
      obtain ⟨m, ms, hm, hrole⟩ := firstRoleCheck_ok_false messages hb
      refine ⟨m, ms, by rw [hm]; rfl, hrole, ?_⟩
      intro htrue
      simp at htrue

/-- Witness for C6 (amended): the prompt-injection case. -/
theorem completion_payload_head_is_system_instance :
    ∃ m rest,
      (("gpt-4o-mini", [systemMessage,
          [("role", "user"), ("content", "breakfast idea")]]) :
        String × List Msg).2 = m :: rest ∧
      dictGet m "role" = some "system" ∧
      (firstRoleCheck [[("role", "user"), ("content", "breakfast idea")]]
          = .ok true → m = systemMessage) :=
  completion_payload_head_is_system envEmpty (providerOk " ok ")
    [[("role", "user"), ("content", "breakfast idea")]]
    ("gpt-4o-mini", [systemMessage,
      [("role", "user"), ("content", "breakfast idea")]])
    (List.mem_singleton_self _)

/-- C7: every request issued by `get_agent_response` carries the module-level
model identifier `MODEL_NAME`, which is the value of the `MODEL_NAME`
environment variable when set and the literal default "gpt-4o-mini" when
absent. -/
theorem every_request_uses_model_name
    (env : String → Option String)
    (provider : String → List Msg → Except PyErr Resp)
    (messages : List Msg) (req : String × List Msg)
    (hreq : req ∈ (get_agent_response env provider messages).1) :
    req.1 = MODEL_NAME env ∧
    (env "MODEL_NAME" = none → req.1 = "gpt-4o-mini") ∧
    (∀ s, env "MODEL_NAME" = some s → req.1 = s) := by
  have h1 : req.1 = MODEL_NAME env := by
    cases hb : firstRoleCheck messages with
    | error e =>
      rw [show (get_agent_response env provider messages).1 = [] by
        unfold get_agent_response; rw [hb]] at hreq
      exact absurd hreq (List.not_mem_nil req)
    | ok b =>
      rw [requests_of_check env provider messages b hb] at hreq
      simp only [List.mem_singleton] at hreq
      rw [hreq]
  refine ⟨h1, ?_, ?_⟩
  · intro hnone
    rw [h1]
    unfold MODEL_NAME
    rw [hnone]
    rfl
  · intro s hsome
    rw [h1]
    unfold MODEL_NAME
    rw [hsome]
    rfl

/-- Witness for C7: an environment that sets MODEL_NAME to "m1". -/
theorem every_request_uses_model_name_instance :
    (("m1", [[("role", "system"), ("content", "x")]]) :
        String × List Msg).1
      = MODEL_NAME (fun _ => some "m1") ∧
    ((fun (_ : String) => some "m1") "MODEL_NAME" = none →
      (("m1", [[("role", "system"), ("content", "x")]]) :
          String × List Msg).1 = "gpt-4o-mini") ∧
    (∀ s, (fun (_ : String) => some "m1") "MODEL_NAME" = some s →
      (("m1", [[("role", "system"), ("content", "x")]]) :
          String × List Msg).1 = s) :=
  every_request_uses_model_name (fun _ => some "m1") (providerOk " ok ")
    [[("role", "system"), ("content", "x")]]
    ("m1", [[("role", "system"), ("content", "x")]])
    (List.mem_singleton_self _)

/-- C8: on a history that is empty or whose every element has a "role" key,
the first-message role check never raises: the empty case short-circuits to
`true` without indexing, the check always produces a Boolean, and the
function always proceeds to issue its single provider request. -/
theorem role_check_total_on_valid_history
    (env : String → Option String)
    (provider : String → List Msg → Except PyErr Resp)
    (messages : List Msg)
    (h : ∀ m ∈ messages, ∃ r, dictGet m "role" = some r) :
    (messages = [] → firstRoleCheck messages = .ok true) ∧
    (∃ b, firstRoleCheck messages = .ok b) ∧
    (∃ cur, (get_agent_response env provider messages).1
        = [(MODEL_NAME env, cur)]) := by
  have hb : ∃ b, firstRoleCheck messages = .ok b := by
    cases messages with
    | nil => exact ⟨true, rfl⟩
    | cons m ms =>
      obtain ⟨r, hr⟩ := h m (List.mem_cons_self m ms)
      refine ⟨r != "system", ?_⟩
      simp only [firstRoleCheck]
      rw [hr]
  obtain ⟨b, hb⟩ := hb
  exact ⟨fun he => by rw [he]; rfl, ⟨b, hb⟩,
    ⟨if b then [systemMessage] ++ messages else messages,
      requests_of_check env provider messages b hb⟩⟩

/-- Witness for C8: a one-element history carrying a "role" key. -/
theorem role_check_total_on_valid_history_instance :
    (([[("role", "user"), ("content", "hi")]] : List Msg) = [] →
      firstRoleCheck [[("role", "user"), ("content", "hi")]] = .ok true) ∧
    (∃ b, firstRoleCheck [[("role", "user"), ("content", "hi")]] = .ok b) ∧
    (∃ cur, (get_agent_response envEmpty (providerOk " ok ")
        [[("role", "user"), ("content", "hi")]]).1
        = [(MODEL_NAME envEmpty, cur)]) :=
  role_check_total_on_valid_history envEmpty (providerOk " ok ")
    [[("role", "user"), ("content", "hi")]]
    (by
      intro m hm
      simp only [List.mem_singleton] at hm
      subst hm
      exact ⟨"user", rfl⟩)

theorem alloc_extends (h : Heap) (l : Heap) (hl : ∃ ext, l = h ++ ext)
    (v : PyVal) : ∃ ext, (alloc l v).1 = h ++ ext := by
  obtain ⟨e, he⟩ := hl
  exact ⟨e ++ [v], by rw [alloc, he, List.append_assoc]⟩

theorem self_extends (h : Heap) : ∃ ext, h = h ++ ext :=
  ⟨[], by simp⟩

/-- C9: `get_agent_response` never mutates caller-visible objects: in the
heap model, every terminating run — returning normally or propagating a
provider exception — produces a heap that extends the initial one, so the
caller's history list and every message object in it are bit-for-bit
unchanged at their addresses. -/
theorem input_heap_preserved
    (providerResult : Except PyErr String) (h : Heap) (messagesRef : Nat)
    (hout : Heap) (res : Except PyErr Nat)
    (heq : get_agent_response_heap providerResult h messagesRef
      = some (hout, res)) :
    (∃ ext, hout = h ++ ext) ∧
    ∀ i, i < h.length → hout[i]? = h[i]? := by
  have hext : ∃ ext, hout = h ++ ext := by
    unfold get_agent_response_heap at heq
    split at heq
    case _ elems _ =>
      split at heq
      · exact Option.noConfusion heq
      · have hpair := Option.some.inj heq
        injection hpair with h1 h2
        rw [← h1]
        exact self_extends h
      · rename_i needsPrompt _
        cases needsPrompt with
        | true =>
          cases providerResult with
          | error e =>
            have hpair := Option.some.inj heq
            injection hpair with h1 h2
            rw [← h1]
            exact alloc_extends h _
              (alloc_extends h _
                (alloc_extends h _ (alloc_extends h _ (self_extends h) _) _) _) _
          | ok raw =>
            have hpair := Option.some.inj heq
            injection hpair with h1 h2
            rw [← h1]
            exact alloc_extends h _
              (alloc_extends h _
                (alloc_extends h _
                  (alloc_extends h _
                    (alloc_extends h _
                      (alloc_extends h _
                        (alloc_extends h _
                          (alloc_extends h _ (self_extends h) _) _) _) _) _) _) _) _
        | false =>
          cases providerResult with
          | error e =>
            have hpair := Option.some.inj heq
            injection hpair with h1 h2
            rw [← h1]
            exact self_extends h
          | ok raw =>
            have hpair := Option.some.inj heq
            injection hpair with h1 h2
            rw [← h1]
            exact alloc_extends h _
              (alloc_extends h _
                (alloc_extends h _
                  (alloc_extends h _ (self_extends h) _) _) _) _
    case _ =>
      exact Option.noConfusion heq
  refine ⟨hext, ?_⟩
  obtain ⟨ext, he⟩ := hext
  intro i hi
  rw [he]
  exact List.getElem?_append_left hi

/-- A concrete caller heap: one history list at address 3 holding one
message dict at address 2. -/
def heap0 : Heap :=
  [.vstr "user", .vstr "hello",
   .vdict [("role", 0), ("content", 1)], .vlist [2]]

/-- The heap after a successful run on `heap0`: the original four objects
unchanged, followed by the eight objects the call allocates. -/
def heap0After : Heap :=
  [.vstr "user", .vstr "hello",
   .vdict [("role", 0), ("content", 1)], .vlist [2],
   .vstr "system", .vstr SYSTEM_PROMPT,
   .vdict [("role", 4), ("content", 5)], .vlist [6, 2],
   .vstr "reply", .vstr "assistant",
   .vdict [("role", 9), ("content", 8)], .vlist [6, 2, 10]]

/-- Witness for C9: a successful run over the concrete heap. -/
theorem input_heap_preserved_instance :
    (∃ ext, heap0After = heap0 ++ ext) ∧
    ∀ i, i < heap0.length → heap0After[i]? = heap0[i]? :=
  input_heap_preserved (.ok " reply ") heap0 3 heap0After (.ok 11) rfl

/-- A reply consisting only of whitespace strips to the empty string. -/
theorem strip_all_whitespace (s : String)
    (hw : ∀ c ∈ s.data, c.isWhitespace) : strip s = "" := by
  unfold strip
  rw [List.dropWhile_eq_nil_iff.mpr hw]
  rfl

/-- C10: when the provider's reply is empty or all whitespace, the function
still appends exactly one assistant message, whose content is the empty
string, and the length postcondition is unchanged. -/
theorem empty_reply_still_appended
    (env : String → Option String)
    (provider : String → List Msg → Except PyErr Resp)
    (messages : List Msg) (b : Bool) (completion : Resp) (raw : String)
    (hb : firstRoleCheck messages = .ok b)
    (hp : provider (MODEL_NAME env)
            (if b then [systemMessage] ++ messages else messages)
          = .ok completion)
    (hx : extractContent completion = .ok raw)
    (hw : ∀ c ∈ raw.data, c.isWhitespace) :
    (get_agent_response env provider messages).2
      = .ok ((if b then [systemMessage] ++ messages else messages)
             ++ [[("role", "assistant"), ("content", "")]]) ∧
    ∀ out, (get_agent_response env provider messages).2 = .ok out →
      out.length
        = (if b then [systemMessage] ++ messages else messages).length
          + 1 := by
  have hres := result_of_success env provider messages b completion raw hb hp hx
  constructor
  · rw [hres]
    rw [strip_all_whitespace raw hw]
  · intro out hout
    rw [hres] at hout
    simp only [Except.ok.injEq] at hout
    rw [← hout]
    simp

/-- Witness for C10: a reply of blanks and a newline. -/
theorem empty_reply_still_appended_instance :
    (get_agent_response envEmpty (providerOk "  \n") []).2
      = .ok ((if true then [systemMessage] ++ ([] : List Msg) else [])
             ++ [[("role", "assistant"), ("content", "")]]) ∧
    ∀ out, (get_agent_response envEmpty (providerOk "  \n") []).2 = .ok out →
      out.length
        = (if true then [systemMessage] ++ ([] : List Msg) else []).length
          + 1 :=
  empty_reply_still_appended envEmpty (providerOk "  \n") []
    true (respOf "  \n") "  \n" rfl rfl rfl (by decide)
